import Mathlib

/-!
Verification development for the Grievix municipal-complaint service
(`rf.py`).  The Python source is shallowly embedded: the classification
pipeline and the record-mutating handlers become pure Lean functions over
an explicit `Store` (the two MongoDB collections as lists).  Machine
integers are `Int`, Python floats on `priority_score` are `Rat` (every
value the code produces is an exact multiple of 1/2, so this is faithful),
and timestamps are `Nat` seconds.
-/

namespace Grievix

/-- Python substring test `pat in text`, on lists of characters:
`startsWithL pat t` holds when `pat` is an initial segment of `t`. -/
def startsWithL : List Char → List Char → Bool
  | [], _ => true
  | _ :: _, [] => false
  | p :: ps, t :: ts => p == t && startsWithL ps ts

/-- `occursIn pat text`: `pat` occurs as a contiguous run inside `text`. -/
def occursIn (pat : List Char) : List Char → Bool
  | [] => pat.isEmpty
  | t :: ts => startsWithL pat (t :: ts) || occursIn pat ts

/-- Python `pat in text` on strings. -/
def strContains (text pat : String) : Bool :=
  occursIn pat.data text.data

/-- Python `s.lower()` (ASCII case folding, like Lean's `String.toLower`,
but by structural recursion over the character list). -/
def pyLower (s : String) : String :=
  ⟨s.data.map Char.toLower⟩

/-- Python `s.strip()`: drop whitespace from both ends. -/
def pyStrip (s : String) : String :=
  ⟨((s.data.dropWhile Char.isWhitespace).reverse.dropWhile
      Char.isWhitespace).reverse⟩

/-- Python `s[:n]`. -/
def takeStr (s : String) (n : Nat) : String :=
  ⟨s.data.take n⟩

/-- `CATEGORIES` from rf.py. -/
def CATEGORIES : List String :=
  ["Water Issues", "Road Issues", "Garbage Issues", "Electricity",
   "Drainage Issues", "Other"]

/-- `CATEGORY_KEYWORDS` from rf.py, in declaration order. -/
def CATEGORY_KEYWORDS : List (String × List String) :=
  [("Water Issues", ["water", "drinking", "supply", "leak", "pipe", "tap",
      "smell", "taste", "pressure"]),
   ("Road Issues", ["road", "pothole", "asphalt", "street", "highway",
      "repair", "damage", "construction"]),
   ("Garbage Issues", ["garbage", "trash", "waste", "collection", "dump",
      "bin", "clean", "disposal"]),
   ("Electricity", ["electricity", "power", "outage", "blackout", "wire",
      "transformer", "voltage", "flickering"]),
   ("Drainage Issues", ["drainage", "sewer", "flood", "waterlogging",
      "blockage", "clog", "overflow"]),
   ("Other", ["noise", "loudspeaker", "park", "tree", "animal", "stray",
      "public", "nuisance"])]

/-- `manual_category_detection` from rf.py: lower-case the input and return
the first category (in declaration order) one of whose keywords occurs as a
substring of the text. -/
def manual_category_detection (complaint_text : String) : Option String :=
  let t := pyLower complaint_text
  (CATEGORY_KEYWORDS.find? fun p =>
      p.2.any fun keyword => strContains t (pyLower keyword)).map Prod.fst

/-- `validate_prediction` from rf.py: coerce anything outside the fixed
category set to "Other". -/
def validate_prediction (predicted_category : String) : String :=
  if CATEGORIES.contains predicted_category then predicted_category
  else "Other"

/-- Value of ASCII decimal digits, as produced by Python `int` on a digit
string. -/
def digitsVal (l : List Char) : Nat :=
  l.foldl (fun acc c => acc * 10 + (c.toNat - 48)) 0

/-- Python `int(s)` on a string: optional surrounding whitespace, optional
sign, then a non-empty run of decimal digits; anything else raises (here:
`none`). -/
def parsePyInt (s : String) : Option Int :=
  match (pyStrip s).data with
  | [] => none
  | '-' :: rest =>
    if rest ≠ [] ∧ rest.all Char.isDigit then some (-(digitsVal rest : Int))
    else none
  | '+' :: rest =>
    if rest ≠ [] ∧ rest.all Char.isDigit then some ((digitsVal rest : Int))
    else none
  | l =>
    if l.all Char.isDigit then some ((digitsVal l : Int)) else none

/-- A stored complaint document (the fields of `complaint_entry` used by
this development; `voters` starts absent in Mongo, which reads back as the
empty list via `complaint.get('voters', [])`). -/
structure ComplaintEntry where
  id : String
  complaint : String
  category : String
  location : String
  prediction_source : String
  status : String
  priority_score : Rat
  severity : Int
  tags : List String
  anonymous : Bool
  votes : Int
  voters : List String
  submitted_by : String
  timestamp : Nat
  deriving Repr, DecidableEq

/-- A stored activity document: exactly the three fields written by
`log_activity` (no relative-age label is ever stored). -/
structure ActivityEntry where
  type : String
  message : String
  timestamp : Nat
  deriving Repr, DecidableEq

/-- The database: the `complaints` and `activity` collections. -/
structure Store where
  complaints : List ComplaintEntry
  activity : List ActivityEntry
  deriving Repr, DecidableEq

/-- `log_activity` from rf.py: append one `{type, message, timestamp}`
document to the activity collection. -/
def log_activity (activity_type message : String) (now : Nat) (st : Store) :
    Store :=
  { st with activity :=
      st.activity ++ [{ type := activity_type, message := message,
                        timestamp := now }] }

/-- Truthiness of an optional string field, as Python `if not x` sees it:
absent and empty are both falsy. -/
def truthy : Option String → Bool
  | none => false
  | some s => !(s == "")

/-- Mongo `update_one`: apply `f` to the first element matching `p`. -/
def update_first {α : Type} (p : α → Bool) (f : α → α) : List α → List α
  | [] => []
  | c :: cs => if p c then f c :: cs else c :: update_first p f cs

/-- The request fields consumed by `submit_complaint` (severity is the raw
form field, absent when not supplied). -/
structure SubmitInput where
  complaint_raw : String
  location : String
  submitted_by : String
  severity_field : Option String
  tags : List String
  anonymous_field : Option String
  deriving Repr

/-- Result of `submit_complaint`: the 400 short-text rejection, or the
created document. -/
inductive SubmitOutcome where
  | validationError
  | created (entry : ComplaintEntry)
  deriving Repr, DecidableEq

/-- The created document carried by a `created` outcome. -/
def SubmitOutcome.entry? : SubmitOutcome → Option ComplaintEntry
  | .validationError => none
  | .created e => some e

/-- `submit_complaint` from rf.py.  `ml` is the statistical classifier:
`some predict` when model, vectorizer and label encoder are all loaded
(`predict` being the composed vectorize/predict/decode pipeline), `none`
otherwise.  `complaint_id` stands for the generated uuid and `now` for the
server clock. -/
def submit_complaint (ml : Option (String → String)) (inp : SubmitInput)
    (complaint_id : String) (now : Nat) (st : Store) :
    SubmitOutcome × Store :=
  let complaint_text := pyStrip inp.complaint_raw
  if complaint_text.length < 10 then
    (.validationError, st)
  else
    let manual_category := manual_category_detection (pyLower complaint_text)
    let predicted0 :=
      match manual_category with
      | some c => c
      | none =>
        match ml with
        | some predict => validate_prediction (predict (pyLower complaint_text))
        | none => (manual_category_detection (pyLower complaint_text)).getD "Other"
    let predicted_category :=
      if CATEGORIES.contains predicted0 then predicted0 else "Other"
    let severity : Int :=
      match inp.severity_field with
      | none => 5
      | some s => (parsePyInt s).getD 5
    let anonymous := pyLower (inp.anonymous_field.getD "false") == "true"
    let priority_score : Int :=
      if strContains (pyLower complaint_text) "urgent"
          || strContains (pyLower complaint_text) "emergency" then
        min 10 (severity + 2)
      else if strContains (pyLower complaint_text) "soon"
          || strContains (pyLower complaint_text) "important" then
        min 10 (severity + 1)
      else severity
    let entry : ComplaintEntry :=
      { id := complaint_id
        complaint := complaint_text
        category := predicted_category
        location := inp.location
        prediction_source := if manual_category.isSome then "manual" else "model"
        status := "new"
        priority_score := (priority_score : Rat)
        severity := severity
        tags := inp.tags
        anonymous := anonymous
        votes := 0
        voters := []
        submitted_by := inp.submitted_by
        timestamp := now }
    let st1 : Store := { st with complaints := st.complaints ++ [entry] }
    let st2 := log_activity "new_complaint"
      ("New complaint submitted in " ++ predicted_category ++ " category")
      now st1
    (.created entry, st2)

/-- Result of `update_status`: the two 400 rejections, the 404, or
success. -/
inductive StatusOutcome where
  | missingFields
  | invalidStatus
  | notFound
  | success
  deriving Repr, DecidableEq

/-- `update_status` from rf.py: reject missing fields, then reject any
status outside `{new, in_progress, resolved}`, then update the record (404
when no record matched) and log one activity entry whose message renders
the status as a human label. -/
def update_status (complaintId newStatus : Option String) (now : Nat)
    (st : Store) : StatusOutcome × Store :=
  if !truthy complaintId || !truthy newStatus then (.missingFields, st)
  else
    let cid := complaintId.getD ""
    let new_status := newStatus.getD ""
    if !(["new", "in_progress", "resolved"].contains new_status) then
      (.invalidStatus, st)
    else
      let updated_complaints :=
        update_first (fun c => c.id == cid)
          (fun c => { c with status := new_status }) st.complaints
      let st1 : Store := { st with complaints := updated_complaints }
      if (st.complaints.find? fun c => c.id == cid).isNone then
        (.notFound, st1)
      else
        let status_text :=
          if new_status == "new" then "New"
          else if new_status == "in_progress" then "In Progress"
          else "Resolved"
        (.success,
         log_activity "status_update"
           ("Complaint #" ++ takeStr cid 8 ++ " marked as " ++ status_text)
           now st1)

/-- Result of `vote_complaint`: the 400 missing-id rejection, the 404, the
400 already-voted rejection, or success carrying the updated counters. -/
inductive VoteOutcome where
  | missingId
  | notFound
  | alreadyVoted
  | success (votes : Int) (priority_score : Rat)
  deriving Repr, DecidableEq

/-- The Mongo update of one vote: `$inc` votes by `vote_change` and
priority_score by `vote_change * 0.5`, and `$addToSet` the voter when an
email was supplied. -/
def apply_vote (vote_change : Int) (add_voter : Option String)
    (c : ComplaintEntry) : ComplaintEntry :=
  { c with
    votes := c.votes + vote_change
    priority_score := c.priority_score + (vote_change : Rat) * (1 / 2)
    voters :=
      match add_voter with
      | none => c.voters
      | some e => if c.voters.contains e then c.voters else c.voters ++ [e] }

/-- `vote_complaint` from rf.py.  `voteType` defaults to "upvote" when
absent; any other value counts as a downvote.  A supplied email already in
the record's voter list is rejected before any mutation. -/
def vote_complaint (complaintId voteType userEmail : Option String)
    (st : Store) : VoteOutcome × Store :=
  let vote_type := voteType.getD "upvote"
  let user_email := userEmail.getD ""
  if !truthy complaintId then (.missingId, st)
  else
    let cid := complaintId.getD ""
    match st.complaints.find? fun c => c.id == cid with
    | none => (.notFound, st)
    | some complaint =>
      if truthy userEmail && complaint.voters.contains user_email then
        (.alreadyVoted, st)
      else
        let vote_change : Int := if vote_type == "upvote" then 1 else -1
        let add_voter := if truthy userEmail then some user_email else none
        let updated_complaints :=
          update_first (fun c => c.id == cid)
            (apply_vote vote_change add_voter) st.complaints
        let st' : Store := { st with complaints := updated_complaints }
        let votes_count : Int :=
          match st'.complaints.find? fun c => c.id == cid with
          | some u => u.votes
          | none => 0
        let ps : Rat :=
          match st'.complaints.find? fun c => c.id == cid with
          | some u => u.priority_score
          | none => 5
        (.success votes_count ps, st')

/-- The relative-age label of `get_recent_activity`, computed from
`now - created` in seconds. -/
def time_ago (now created : Nat) : String :=
  let diff := now - created
  if diff < 60 then "just now"
  else if diff < 3600 then
    let minutes := diff / 60
    toString minutes ++ " minute" ++ (if minutes > 1 then "s" else "") ++ " ago"
  else if diff < 86400 then
    let hours := diff / 3600
    toString hours ++ " hour" ++ (if hours > 1 then "s" else "") ++ " ago"
  else
    let days := diff / 86400
    toString days ++ " day" ++ (if days > 1 then "s" else "") ++ " ago"

/-- An activity document as returned to the client: the stored fields plus
the read-time `time_ago` annotation. -/
structure AnnotatedActivity where
  type : String
  message : String
  timestamp : Nat
  time_ago : String
  deriving Repr, DecidableEq

/-- The read-time annotation applied to each returned activity document. -/
def annotate (now : Nat) (a : ActivityEntry) : AnnotatedActivity :=
  { type := a.type, message := a.message, timestamp := a.timestamp,
    time_ago := time_ago now a.timestamp }

/-- `get_recent_activity` from rf.py: the 10 most recent activity
documents, sorted by timestamp descending, each annotated with its
relative-age label. -/
def get_recent_activity (now : Nat) (st : Store) : List AnnotatedActivity :=
  ((st.activity.mergeSort fun a b => decide (b.timestamp ≤ a.timestamp)).take 10).map
    (annotate now)

/-- A sample stored complaint used by concrete witness instances. -/
def sampleEntry : ComplaintEntry :=
  { id := "c1", complaint := "water leak on my road", category := "Other",
    location := "", prediction_source := "manual", status := "new",
    priority_score := 5, severity := 5, tags := [], anonymous := false,
    votes := 1, voters := ["a@b"], submitted_by := "A", timestamp := 0 }

/-- A sample one-complaint store used by concrete witness instances. -/
def sampleStore : Store :=
  Store.mk [sampleEntry] []

/-! Helper lemmas shared by the claim theorems. -/

/-- `List.find?` returns the element at position `i` when it satisfies the
predicate and everything before it fails. -/
theorem find?_first_hit {α : Type} (l : List α) (p : α → Bool) (i : Nat)
    (x : α) (hx : l[i]? = some x) (hpx : p x = true)
    (hbefore : ∀ j, j < i → ∀ y, l[j]? = some y → p y = false) :
    l.find? p = some x := by
  induction l generalizing i with
  | nil => simp at hx
  | cons a as ih =>
    cases i with
    | zero =>
      simp only [List.getElem?_cons_zero, Option.some.injEq] at hx
      subst hx
      exact List.find?_cons_of_pos _ hpx
    | succ n =>
      have ha : p a = false := hbefore 0 (Nat.succ_pos n) a (by simp)
      rw [List.find?_cons_of_neg _ (by simp [ha])]
      exact ih n (by simpa using hx)
        (fun j hj y hy => hbefore (j + 1) (by omega) y (by simpa using hy))

/-- Updating the first hit of `p` moves `find?` to the updated element,
provided the update keeps the predicate true. -/
theorem find?_update_first {α : Type} (p : α → Bool) (f : α → α)
    (l : List α) (c : α) (hfind : l.find? p = some c) (hf : p (f c) = true) :
    (update_first p f l).find? p = some (f c) := by
  induction l with
  | nil => simp [List.find?] at hfind
  | cons a as ih =>
    by_cases hpa : p a = true
    · rw [List.find?_cons_of_pos _ hpa] at hfind
      injection hfind with h
      subst h
      simp only [update_first, if_pos hpa]
      exact List.find?_cons_of_pos _ hf
    · have hpa' : p a = false := by
        cases h : p a
        · rfl
        · exact absurd h hpa
      rw [List.find?_cons_of_neg _ (by simp [hpa'])] at hfind
      simp only [update_first, hpa', Bool.false_eq_true, if_false]
      rw [List.find?_cons_of_neg _ (by simp [hpa'])]
      exact ih hfind

/-- `Char.ofNat` of a valid codepoint round-trips through `toNat`. -/
theorem toNat_ofNat_of_valid {m : Nat} (h : m.isValidChar) :
    (Char.ofNat m).toNat = m := by
  unfold Char.ofNat
  rw [dif_pos h]
  rfl

/-- Lower-casing fixes a character that is not an ASCII capital. -/
theorem toLower_eq_self (c : Char) (h : ¬(c.toNat ≥ 65 ∧ c.toNat ≤ 90)) :
    c.toLower = c := by
  simp only [Char.toLower]
  exact if_neg h

/-- The result of lower-casing is never an ASCII capital. -/
theorem toLower_not_upper (c : Char) :
    ¬(c.toLower.toNat ≥ 65 ∧ c.toLower.toNat ≤ 90) := by
  simp only [Char.toLower]
  by_cases h : c.toNat ≥ 65 ∧ c.toNat ≤ 90
  · rw [if_pos h, toNat_ofNat_of_valid (Or.inl (by omega))]
    omega
  · rw [if_neg h]
    omega

/-- ASCII lower-casing is idempotent on characters. -/
theorem char_toLower_idem (c : Char) : c.toLower.toLower = c.toLower :=
  toLower_eq_self _ (toLower_not_upper c)

/-- Lower-casing a string twice is the same as lower-casing it once. -/
theorem pyLower_idem (s : String) : pyLower (pyLower s) = pyLower s := by
  unfold pyLower
  simp only [List.map_map]
  congr 1
  exact List.map_congr_left fun c _ => char_toLower_idem c

/-- Every category that owns a keyword list is a member of the fixed
category set. -/
theorem kw_category_mem (i : Nat) (C : String) (kws : List String)
    (h : CATEGORY_KEYWORDS[i]? = some (C, kws)) :
    CATEGORIES.contains C = true := by
  have hlt : i < 6 := by
    by_contra hge
    have : CATEGORY_KEYWORDS[i]? = none :=
      List.getElem?_eq_none (by simp [CATEGORY_KEYWORDS]; omega)
    rw [this] at h
    exact Option.noConfusion h
  interval_cases i <;>
    (simp only [CATEGORY_KEYWORDS, List.getElem?_cons_zero,
       List.getElem?_cons_succ, Option.some.injEq, Prod.mk.injEq] at h
     cases h.1
     decide)

/-! Claim theorems. -/

/-- Claim C6: for every submission whose (stripped) complaint text is
shorter than 10 characters, `submit_complaint` fails with the validation
error and has no effect: the returned store is exactly the input store, so
no complaint record is inserted and no activity entry is appended. -/
theorem short_text_rejected_no_effect (ml : Option (String → String))
    (inp : SubmitInput) (cid : String) (now : Nat) (st : Store)
    (hshort : (pyStrip inp.complaint_raw).length < 10) :
    submit_complaint ml inp cid now st = (.validationError, st) := by
  simp only [submit_complaint]
  rw [if_pos hshort]

/-- Claim C6 witness at a concrete 8-character submission. -/
theorem short_text_rejected_no_effect_witness :
    (pyStrip "too short").length < 10 ∧
      submit_complaint none
          { complaint_raw := "too short", location := "", submitted_by := "A",
            severity_field := none, tags := [], anonymous_field := none }
          "cid" 0 ⟨[], []⟩
        = (.validationError, ⟨[], []⟩) :=
  ⟨by decide,
   short_text_rejected_no_effect none
     { complaint_raw := "too short", location := "", submitted_by := "A",
       severity_field := none, tags := [], anonymous_field := none }
     "cid" 0 ⟨[], []⟩ (by decide)⟩

/-- Claim C2 (amended): creation never fails on the severity field; the
stored severity is the integer parsed from the field, with 5 substituted
when the field is missing or unparseable.  No [1,10] range restriction is
enforced. -/
theorem severity_stored_as_parsed (ml : Option (String → String))
    (inp : SubmitInput) (cid : String) (now : Nat) (st : Store)
    (hlen : ¬(pyStrip inp.complaint_raw).length < 10) :
    ((submit_complaint ml inp cid now st).1.entry?.map
        ComplaintEntry.severity)
      = some (match inp.severity_field with
              | none => 5
              | some s => (parsePyInt s).getD 5) := by
  simp only [submit_complaint]
  rw [if_neg hlen]
  rfl

/-- Claim C2 counterexample: a submitted severity of "15" parses and is
stored as 15, outside [1,10], and creation still succeeds. -/
theorem severity_out_of_range_stored :
    ((submit_complaint none
          { complaint_raw := "zzzzzzzzzzzz", location := "",
            submitted_by := "A", severity_field := some "15", tags := [],
            anonymous_field := none }
          "cid" 0 ⟨[], []⟩).1.entry?.map ComplaintEntry.severity)
        = some 15
      ∧ ¬((15 : Int) ≥ 1 ∧ (15 : Int) ≤ 10) := by
  constructor
  · decide
  · decide

/-- Claim C2 witness: the amended statement applied at a concrete
unparseable severity field, yielding the default 5. -/
theorem severity_stored_as_parsed_witness :
    ¬(pyStrip "zzzzzzzzzzzz").length < 10 ∧
      ((submit_complaint none
            { complaint_raw := "zzzzzzzzzzzz", location := "",
              submitted_by := "A", severity_field := some "high", tags := [],
              anonymous_field := none }
            "cid" 0 ⟨[], []⟩).1.entry?.map ComplaintEntry.severity)
        = some 5 :=
  ⟨by decide,
   (severity_stored_as_parsed none
       { complaint_raw := "zzzzzzzzzzzz", location := "",
         submitted_by := "A", severity_field := some "high", tags := [],
         anonymous_field := none }
       "cid" 0 ⟨[], []⟩ (by decide)).trans (by decide)⟩

/-- Claim C1 (amended): when the keyword classifier finds no match and the
statistical classifier is unavailable, the created record's category is
"Other", but its provenance field `prediction_source` is recorded as
"model", not as "manual". -/
theorem no_match_no_model_other_model_source (inp : SubmitInput)
    (cid : String) (now : Nat) (st : Store)
    (hlen : ¬(pyStrip inp.complaint_raw).length < 10)
    (hmanual :
      manual_category_detection (pyLower (pyStrip inp.complaint_raw))
        = none) :
    ((submit_complaint none inp cid now st).1.entry?.map
        ComplaintEntry.category) = some "Other"
      ∧ ((submit_complaint none inp cid now st).1.entry?.map
          ComplaintEntry.prediction_source) = some "model" := by
  simp only [submit_complaint]
  rw [if_neg hlen]
  rw [hmanual]
  exact ⟨rfl, rfl⟩

/-- Claim C1 counterexample: on a keyword-free text with no classifier the
record is created with `prediction_source = "model"`, not the manual/
rule-based marker the claim requires. -/
theorem no_match_no_model_marked_model :
    manual_category_detection (pyLower (pyStrip "zzzzzzzzzzzz")) = none
      ∧ ((submit_complaint none
            { complaint_raw := "zzzzzzzzzzzz", location := "",
              submitted_by := "A", severity_field := none, tags := [],
              anonymous_field := none }
            "cid" 0 ⟨[], []⟩).1.entry?.map ComplaintEntry.prediction_source)
          = some "model"
      ∧ "model" ≠ "manual" := by
  refine ⟨by decide, by decide, by decide⟩

/-- Claim C1 witness: the amended statement applied at a concrete
keyword-free text. -/
theorem no_match_no_model_other_model_source_witness :
    (¬(pyStrip "qqqqqqqqqqqq").length < 10
        ∧ manual_category_detection (pyLower (pyStrip "qqqqqqqqqqqq")) = none)
      ∧ ((submit_complaint none
            { complaint_raw := "qqqqqqqqqqqq", location := "",
              submitted_by := "A", severity_field := none, tags := [],
              anonymous_field := none }
            "cid" 0 ⟨[], []⟩).1.entry?.map ComplaintEntry.category)
          = some "Other" :=
  ⟨⟨by decide, by decide⟩,
   (no_match_no_model_other_model_source
       { complaint_raw := "qqqqqqqqqqqq", location := "",
         submitted_by := "A", severity_field := none, tags := [],
         anonymous_field := none }
       "cid" 0 ⟨[], []⟩ (by decide) (by decide)).1⟩

/-- Claim C5: the initial priority score of every created complaint is the
parsed severity, boosted by 2 and capped at 10 when the text contains
"urgent" or "emergency" (case-insensitively), else boosted by 1 and capped
at 10 when it contains "soon" or "important", else the bare severity; the
two boosts are mutually exclusive branches. -/
theorem initial_priority_formula (ml : Option (String → String))
    (inp : SubmitInput) (cid : String) (now : Nat) (st : Store)
    (hlen : ¬(pyStrip inp.complaint_raw).length < 10) :
    ((submit_complaint ml inp cid now st).1.entry?.map
        ComplaintEntry.priority_score)
      = some
          (((let sev : Int :=
              match inp.severity_field with
              | none => 5
              | some s => (parsePyInt s).getD 5
            let low := pyLower (pyStrip inp.complaint_raw)
            if strContains low "urgent" || strContains low "emergency" then
              min 10 (sev + 2)
            else if strContains low "soon" || strContains low "important" then
              min 10 (sev + 1)
            else sev) : Int) : Rat) := by
  simp only [submit_complaint]
  rw [if_neg hlen]
  rfl

/-- Claim C5 witness: text containing "urgent" with severity 9 yields
initial priority score 10 (capped), not 11. -/
theorem initial_priority_formula_witness :
    ¬(pyStrip "urgent: the bridge has collapsed").length < 10 ∧
      ((submit_complaint none
            { complaint_raw := "urgent: the bridge has collapsed",
              location := "", submitted_by := "A",
              severity_field := some "9", tags := [],
              anonymous_field := none }
            "cid" 0 ⟨[], []⟩).1.entry?.map ComplaintEntry.priority_score)
        = some ((10 : Int) : Rat) :=
  ⟨by decide,
   (initial_priority_formula none
       { complaint_raw := "urgent: the bridge has collapsed",
         location := "", submitted_by := "A", severity_field := some "9",
         tags := [], anonymous_field := none }
       "cid" 0 ⟨[], []⟩ (by decide)).trans (by decide)⟩

/-- Claim C4: when the (lower-cased) text contains a keyword of the
category at position `i` of the declaration order and no keyword of any
earlier category, the created record carries that category with the
rule-based provenance marker "manual" — and this holds for every value of
the statistical classifier `ml`, which is therefore never consulted. -/
theorem keyword_match_wins (ml : Option (String → String))
    (inp : SubmitInput) (cid : String) (now : Nat) (st : Store)
    (i : Nat) (C : String) (kws : List String)
    (hlen : ¬(pyStrip inp.complaint_raw).length < 10)
    (hCat : CATEGORY_KEYWORDS[i]? = some (C, kws))
    (hhit : kws.any
        (fun kw =>
          strContains (pyLower (pyStrip inp.complaint_raw)) (pyLower kw))
        = true)
    (hearlier : ∀ j, j < i → ∀ q, CATEGORY_KEYWORDS[j]? = some q →
        q.2.any
            (fun kw =>
              strContains (pyLower (pyStrip inp.complaint_raw)) (pyLower kw))
          = false) :
    ((submit_complaint ml inp cid now st).1.entry?.map
        ComplaintEntry.category) = some C
      ∧ ((submit_complaint ml inp cid now st).1.entry?.map
          ComplaintEntry.prediction_source) = some "manual" := by
  have hm : manual_category_detection (pyLower (pyStrip inp.complaint_raw))
      = some C := by
    show ((CATEGORY_KEYWORDS.find? fun p =>
        p.2.any fun keyword =>
          strContains (pyLower (pyLower (pyStrip inp.complaint_raw)))
            (pyLower keyword)).map Prod.fst) = some C
    rw [pyLower_idem]
    rw [find?_first_hit CATEGORY_KEYWORDS _ i (C, kws) hCat hhit hearlier]
    rfl
  have hC : CATEGORIES.contains C = true := kw_category_mem i C kws hCat
  simp only [submit_complaint]
  rw [if_neg hlen]
  rw [hm]
  constructor
  · show some (if CATEGORIES.contains C = true then C else "Other") = some C
    rw [if_pos hC]
  · rfl

/-- Claim C4 witness: "big pothole near my house" hits the Road Issues
keywords (position 1) and no Water Issues keyword, so the created record
is Road Issues with manual provenance, independently of the classifier. -/
theorem keyword_match_wins_witness :
    ¬(pyStrip "big pothole near my house").length < 10 ∧
      ((submit_complaint (some fun _ => "Electricity")
            { complaint_raw := "big pothole near my house", location := "",
              submitted_by := "A", severity_field := none, tags := [],
              anonymous_field := none }
            "cid" 0 ⟨[], []⟩).1.entry?.map ComplaintEntry.category)
        = some "Road Issues" :=
  ⟨by decide,
   (keyword_match_wins (some fun _ => "Electricity")
       { complaint_raw := "big pothole near my house", location := "",
         submitted_by := "A", severity_field := none, tags := [],
         anonymous_field := none }
       "cid" 0 ⟨[], []⟩ 1 "Road Issues"
       ["road", "pothole", "asphalt", "street", "highway", "repair",
        "damage", "construction"]
       (by decide) (by decide) (by decide)
       (by
         intro j hj q hq
         interval_cases j
         have hq' : q = ("Water Issues",
             ["water", "drinking", "supply", "leak", "pipe", "tap",
              "smell", "taste", "pressure"]) := by
           simpa [CATEGORY_KEYWORDS] using hq.symm
         subst hq'
         decide)).1⟩

/-- Shared helper: a vote with no voter identity on an existing complaint
always succeeds, applying `apply_vote` with delta +1 exactly when the vote
type (defaulted to "upvote") is the exact string "upvote", else -1. -/
theorem vote_complaint_anon_eq (st : Store) (cid : String)
    (voteType : Option String) (c : ComplaintEntry) (hcid : cid ≠ "")
    (hfind : st.complaints.find? (fun x => x.id == cid) = some c) :
    vote_complaint (some cid) voteType none st
      = (.success
           (apply_vote
             (if voteType.getD "upvote" == "upvote" then 1 else -1) none
             c).votes
           (apply_vote
             (if voteType.getD "upvote" == "upvote" then 1 else -1) none
             c).priority_score,
         Store.mk
           (update_first (fun x => x.id == cid)
             (apply_vote
               (if voteType.getD "upvote" == "upvote" then 1 else -1)
               none)
             st.complaints)
           st.activity) := by
  have h1 : truthy (some cid) = true := by simp [truthy, hcid]
  have hpc0 := List.find?_some hfind
  have hup := find?_update_first (fun x => x.id == cid)
    (apply_vote (if voteType.getD "upvote" == "upvote" then 1 else -1) none)
    st.complaints c hfind (by simpa [apply_vote] using hpc0)
  simp only [beq_iff_eq] at hup
  simp [vote_complaint, h1, hfind, truthy, hup, hcid]

/-- Shared helper: a vote on an existing complaint by a voter who does not
conflict — no identity given, or an identity not yet in the record's voter
set — always succeeds, applying `apply_vote` with delta +1 exactly when
the vote type (defaulted to "upvote") is the exact string "upvote", else
-1, and adding the identity (when given) to the voter set. -/
theorem vote_complaint_fresh_eq (st : Store) (cid : String)
    (voteType userEmail : Option String) (c : ComplaintEntry)
    (hcid : cid ≠ "")
    (hfind : st.complaints.find? (fun x => x.id == cid) = some c)
    (hfresh : truthy userEmail = false
      ∨ c.voters.contains (userEmail.getD "") = false) :
    vote_complaint (some cid) voteType userEmail st
      = (.success
           (apply_vote
             (if voteType.getD "upvote" == "upvote" then 1 else -1)
             (if truthy userEmail then some (userEmail.getD "") else none)
             c).votes
           (apply_vote
             (if voteType.getD "upvote" == "upvote" then 1 else -1)
             (if truthy userEmail then some (userEmail.getD "") else none)
             c).priority_score,
         Store.mk
           (update_first (fun x => x.id == cid)
             (apply_vote
               (if voteType.getD "upvote" == "upvote" then 1 else -1)
               (if truthy userEmail then some (userEmail.getD "") else none))
             st.complaints)
           st.activity) := by
  have h1 : truthy (some cid) = true := by simp [truthy, hcid]
  have hcond : truthy userEmail = true → (userEmail.getD "") ∉ c.voters := by
    intro ht
    rcases hfresh with h | h
    · rw [ht] at h
      exact absurd h (by simp)
    · simpa using h
  have hpc0 := List.find?_some hfind
  have hup := find?_update_first (fun x => x.id == cid)
    (apply_vote (if voteType.getD "upvote" == "upvote" then 1 else -1)
      (if truthy userEmail then some (userEmail.getD "") else none))
    st.complaints c hfind (by simpa [apply_vote] using hpc0)
  simp only [beq_iff_eq] at hup
  simp [vote_complaint, h1, hfind, hup, hcid]
  exact hcond

/-- Claim C3: a second vote with a non-empty voter identity already in the
record's voter set fails with the already-voted conflict and performs no
mutation: the store is returned unchanged. -/
theorem duplicate_voter_rejected (st : Store) (cid email : String)
    (voteType : Option String) (c : ComplaintEntry) (hcid : cid ≠ "")
    (hfind : st.complaints.find? (fun x => x.id == cid) = some c)
    (hemail : email ≠ "") (hvoted : c.voters.contains email = true) :
    vote_complaint (some cid) voteType (some email) st
      = (.alreadyVoted, st) := by
  have h1 : truthy (some cid) = true := by simp [truthy, hcid]
  have h2 : truthy (some email) = true := by simp [truthy, hemail]
  simp only [vote_complaint, h1, Bool.not_true, Bool.false_eq_true,
    if_false, hfind, h2, Bool.true_and, Option.getD_some, hvoted, if_true]

/-- Claim C3 witness: a concrete store where "a@b" already voted. -/
theorem duplicate_voter_rejected_witness :
    ("c1" : String) ≠ ""
      ∧ sampleStore.complaints.find? (fun x => x.id == "c1")
          = some sampleEntry
      ∧ ("a@b" : String) ≠ ""
      ∧ sampleEntry.voters.contains "a@b" = true
      ∧ vote_complaint (some "c1") (some "upvote") (some "a@b") sampleStore
          = (.alreadyVoted, sampleStore) :=
  ⟨by decide, by decide, by decide, by decide,
   duplicate_voter_rejected sampleStore "c1" "a@b" (some "upvote")
     sampleEntry (by decide) (by decide) (by decide) (by decide)⟩

/-- Claim C7: every successful vote on an existing complaint — anonymous
or by a voter identity not yet in the record's voter set — applies exactly
+1 votes and +0.5 priority for an upvote and -1 / -0.5 for a downvote,
with no bound enforced on either field; votes with no identity never
conflict: two anonymous upvotes on the same complaint both succeed, for +2
votes and +1.0 priority total. -/
theorem successful_vote_accounting (st : Store) (cid : String)
    (c : ComplaintEntry) (userEmail : Option String) (hcid : cid ≠ "")
    (hfind : st.complaints.find? (fun x => x.id == cid) = some c)
    (hfresh : truthy userEmail = false
      ∨ c.voters.contains (userEmail.getD "") = false) :
    (vote_complaint (some cid) (some "upvote") userEmail st).1
        = .success (c.votes + 1) (c.priority_score + 1 / 2)
      ∧ (vote_complaint (some cid) (some "downvote") userEmail st).1
          = .success (c.votes - 1) (c.priority_score - 1 / 2)
      ∧ (vote_complaint (some cid) (some "upvote") none
            (vote_complaint (some cid) (some "upvote") none st).2).1
          = .success (c.votes + 2) (c.priority_score + 1) := by
  have h1 := vote_complaint_fresh_eq st cid (some "upvote") userEmail c
    hcid hfind hfresh
  have h2 := vote_complaint_fresh_eq st cid (some "downvote") userEmail c
    hcid hfind hfresh
  refine ⟨?_, ?_, ?_⟩
  · rw [h1]
    simp [apply_vote]
  · rw [h2]
    simp [apply_vote]
    constructor
    · omega
    · ring
  · have h1n := vote_complaint_anon_eq st cid (some "upvote") c hcid hfind
    rw [h1n]
    have hfind2 : (Store.mk
        (update_first (fun x => x.id == cid)
          (apply_vote (if (some "upvote").getD "upvote" == "upvote" then 1
            else -1) none)
          st.complaints)
        st.activity).complaints.find? (fun x => x.id == cid)
          = some (apply_vote
              (if (some "upvote").getD "upvote" == "upvote" then 1 else -1)
              none c) :=
      find?_update_first _ _ _ _ hfind
        (by simpa [apply_vote] using List.find?_some hfind)
    have h3 := vote_complaint_anon_eq _ cid (some "upvote") _ hcid hfind2
    rw [h3]
    simp [apply_vote]
    constructor
    · omega
    · ring

/-- Claim C7 witness: the identified first-time voter "new@x" upvotes the
sample complaint for +1 votes and +0.5 priority, and two anonymous upvotes
on it give +2 votes and +1.0 priority total. -/
theorem successful_vote_accounting_witness :
    ("c1" : String) ≠ ""
      ∧ sampleStore.complaints.find? (fun x => x.id == "c1")
          = some sampleEntry
      ∧ (truthy (some "new@x") = false
          ∨ sampleEntry.voters.contains ((some "new@x").getD "") = false)
      ∧ (vote_complaint (some "c1") (some "upvote") (some "new@x")
            sampleStore).1
          = .success (sampleEntry.votes + 1)
              (sampleEntry.priority_score + 1 / 2)
      ∧ (vote_complaint (some "c1") (some "upvote") none
            (vote_complaint (some "c1") (some "upvote") none
              sampleStore).2).1
          = .success (sampleEntry.votes + 2)
              (sampleEntry.priority_score + 1) :=
  ⟨by decide, by decide, by decide,
   (successful_vote_accounting sampleStore "c1" sampleEntry (some "new@x")
      (by decide) (by decide) (by decide)).1,
   (successful_vote_accounting sampleStore "c1" sampleEntry none
      (by decide) (by decide) (by decide)).2.2⟩

/-- Claim C10: `vote_complaint` never rejects a vote type: on an existing
complaint, an anonymous vote with any string other than exactly "upvote"
succeeds as a downvote (-1 votes, -0.5 priority), and a missing vote type
defaults to an upvote (+1 votes, +0.5 priority). -/
theorem non_upvote_treated_as_downvote (st : Store) (cid vt : String)
    (c : ComplaintEntry) (hcid : cid ≠ "")
    (hfind : st.complaints.find? (fun x => x.id == cid) = some c)
    (hvt : vt ≠ "upvote") :
    (vote_complaint (some cid) (some vt) none st).1
        = .success (c.votes - 1) (c.priority_score - 1 / 2)
      ∧ (vote_complaint (some cid) none none st).1
          = .success (c.votes + 1) (c.priority_score + 1 / 2) := by
  have h1 := vote_complaint_anon_eq st cid (some vt) c hcid hfind
  have h2 := vote_complaint_anon_eq st cid none c hcid hfind
  constructor
  · rw [h1]
    simp [apply_vote, hvt]
    constructor
    · omega
    · ring
  · rw [h2]
    simp [apply_vote]

/-- Claim C10 witness: a misspelled vote type "upvot" is counted as a
downvote on the sample store. -/
theorem non_upvote_treated_as_downvote_witness :
    ("c1" : String) ≠ ""
      ∧ sampleStore.complaints.find? (fun x => x.id == "c1")
          = some sampleEntry
      ∧ ("upvot" : String) ≠ "upvote"
      ∧ (vote_complaint (some "c1") (some "upvot") none sampleStore).1
          = .success (sampleEntry.votes - 1)
              (sampleEntry.priority_score - 1 / 2) :=
  ⟨by decide, by decide, by decide,
   (non_upvote_treated_as_downvote sampleStore "c1" "upvot" sampleEntry
      (by decide) (by decide) (by decide)).1⟩

/-- Claim C8: `update_status` rejects any (non-empty) status value outside
new / in_progress / resolved with a validation error and leaves the store
untouched; on an existing record and a valid status it succeeds, sets the
record's status, and appends exactly one activity entry whose message
renders the status as its human label (New / In Progress / Resolved). -/
theorem update_status_contract (st : Store) (cid ns : String) (now : Nat)
    (c : ComplaintEntry) (hcid : cid ≠ "") :
    (ns ≠ "" → ns ∉ (["new", "in_progress", "resolved"] : List String) →
        update_status (some cid) (some ns) now st = (.invalidStatus, st))
      ∧ (st.complaints.find? (fun x => x.id == cid) = some c →
          ns ∈ (["new", "in_progress", "resolved"] : List String) →
          (update_status (some cid) (some ns) now st).1 = .success
            ∧ (update_status (some cid) (some ns) now st).2.complaints.find?
                (fun x => x.id == cid) = some { c with status := ns }
            ∧ (update_status (some cid) (some ns) now st).2.activity
                = st.activity
                  ++ [{ type := "status_update",
                        message := "Complaint #" ++ takeStr cid 8
                          ++ " marked as "
                          ++ (if ns == "new" then "New"
                              else if ns == "in_progress" then "In Progress"
                              else "Resolved"),
                        timestamp := now }]) := by
  have h1 : truthy (some cid) = true := by simp [truthy, hcid]
  constructor
  · intro hns hbad
    have h2 : truthy (some ns) = true := by simp [truthy, hns]
    simp only [List.mem_cons, List.not_mem_nil, or_false, not_or] at hbad
    obtain ⟨hb1, hb2, hb3⟩ := hbad
    simp [update_status, h1, h2, hb1, hb2, hb3]
  · intro hfind hmem
    have hup := find?_update_first (fun x => x.id == cid)
      (fun x => { x with status := ns }) st.complaints c hfind
      (by simpa using List.find?_some hfind)
    simp only [beq_iff_eq] at hup
    simp only [List.mem_cons, List.not_mem_nil, or_false] at hmem
    rcases hmem with rfl | rfl | rfl
    all_goals refine ⟨?_, ?_, ?_⟩
    all_goals
      simp [update_status, truthy, h1, hcid, hfind, hup, log_activity]

/-- Claim C8 witness: "closed" is rejected on the sample store, and
"resolved" succeeds with a "marked as Resolved" activity message. -/
theorem update_status_contract_witness :
    (("c1" : String) ≠ "" ∧ ("closed" : String) ≠ ""
        ∧ ("closed" : String) ∉ (["new", "in_progress", "resolved"] : List String))
      ∧ update_status (some "c1") (some "closed") 9 sampleStore
          = (.invalidStatus, sampleStore)
      ∧ (update_status (some "c1") (some "resolved") 9 sampleStore).2.activity
          = [{ type := "status_update",
               message := "Complaint #c1 marked as Resolved",
               timestamp := 9 }] :=
  ⟨⟨by decide, by decide, by decide⟩,
   (update_status_contract sampleStore "c1" "closed" 9 sampleEntry
       (by decide)).1 (by decide) (by decide),
   ((update_status_contract sampleStore "c1" "resolved" 9 sampleEntry
       (by decide)).2 (by decide) (by decide)).2.2.trans (by decide)⟩

/-- Claim C9: the recent-activity read returns (up to) the 10 most recent
activity entries in descending timestamp order — a prefix of a sorted
permutation of the whole log — each annotated at read time with the
relative-age label bucketed from now minus created_at (under 60 s "just
now", under 1 h minutes, under 24 h hours, else days, singular/plural per
unit); the label is a read-time annotation, while `log_activity` stores
exactly the three fields type/message/timestamp and never a label. -/
theorem recent_activity_contract (st : Store) (now : Nat) :
    (∃ l : List ActivityEntry,
        l.Perm st.activity
          ∧ l.Pairwise (fun a b => b.timestamp ≤ a.timestamp)
          ∧ get_recent_activity now st = (l.take 10).map (annotate now))
      ∧ (get_recent_activity now st).length = min 10 st.activity.length
      ∧ List.Pairwise (fun a b => b.timestamp ≤ a.timestamp)
          ((get_recent_activity now st).map
            (fun r => ActivityEntry.mk r.type r.message r.timestamp))
      ∧ (∀ r ∈ get_recent_activity now st,
          (now - r.timestamp < 60 → r.time_ago = "just now")
            ∧ (60 ≤ now - r.timestamp → now - r.timestamp < 3600 →
                r.time_ago
                  = toString ((now - r.timestamp) / 60) ++ " minute"
                    ++ (if (now - r.timestamp) / 60 > 1 then "s" else "")
                    ++ " ago")
            ∧ (3600 ≤ now - r.timestamp → now - r.timestamp < 86400 →
                r.time_ago
                  = toString ((now - r.timestamp) / 3600) ++ " hour"
                    ++ (if (now - r.timestamp) / 3600 > 1 then "s" else "")
                    ++ " ago")
            ∧ (86400 ≤ now - r.timestamp →
                r.time_ago
                  = toString ((now - r.timestamp) / 86400) ++ " day"
                    ++ (if (now - r.timestamp) / 86400 > 1 then "s" else "")
                    ++ " ago"))
      ∧ (∀ ty msg n₀ st₀,
          (log_activity ty msg n₀ st₀).activity
            = st₀.activity
              ++ [{ type := ty, message := msg, timestamp := n₀ }]) := by
  have hperm := List.mergeSort_perm st.activity
    (fun a b : ActivityEntry => decide (b.timestamp ≤ a.timestamp))
  have hsortedB : (st.activity.mergeSort
      (fun a b : ActivityEntry => decide (b.timestamp ≤ a.timestamp))).Pairwise
        (fun a b : ActivityEntry =>
          decide (b.timestamp ≤ a.timestamp) = true) :=
    List.sorted_mergeSort
      (by intro a b c hab hbc; simp at hab hbc ⊢; omega)
      (by intro a b; simp; omega)
      st.activity
  have hsorted : (st.activity.mergeSort
      (fun a b : ActivityEntry => decide (b.timestamp ≤ a.timestamp))).Pairwise
        (fun a b => b.timestamp ≤ a.timestamp) :=
    hsortedB.imp (fun h => by simpa using h)
  refine ⟨⟨_, hperm, hsorted, rfl⟩, ?_, ?_, ?_, ?_⟩
  · simp [get_recent_activity, Nat.min_comm, hperm.length_eq]
  · have htake : (List.take 10 (st.activity.mergeSort
        (fun a b : ActivityEntry =>
          decide (b.timestamp ≤ a.timestamp)))).Pairwise
          (fun a b => b.timestamp ≤ a.timestamp) :=
      hsorted.sublist (List.take_sublist 10 _)
    simp only [get_recent_activity, List.map_map]
    exact (List.pairwise_map).mpr htake
  · intro r hr
    simp only [get_recent_activity, List.mem_map] at hr
    obtain ⟨a, _, rfl⟩ := hr
    refine ⟨?_, ?_, ?_, ?_⟩
    · intro h
      have h' : now - a.timestamp < 60 := by simpa [annotate] using h
      simp only [annotate, time_ago]
      rw [if_pos h']
    · intro h1 h2
      have h1' : 60 ≤ now - a.timestamp := by simpa [annotate] using h1
      have h2' : now - a.timestamp < 3600 := by simpa [annotate] using h2
      simp only [annotate, time_ago]
      rw [if_neg (by omega), if_pos h2']
    · intro h1 h2
      have h1' : 3600 ≤ now - a.timestamp := by simpa [annotate] using h1
      have h2' : now - a.timestamp < 86400 := by simpa [annotate] using h2
      simp only [annotate, time_ago]
      rw [if_neg (by omega), if_neg (by omega), if_pos h2']
    · intro h1
      have h1' : 86400 ≤ now - a.timestamp := by simpa [annotate] using h1
      simp only [annotate, time_ago]
      rw [if_neg (by omega), if_neg (by omega), if_neg (by omega)]
  · intro ty msg n₀ st₀
    rfl

/-- Claim C9 witness: the contract applied at a concrete two-entry log. -/
theorem recent_activity_contract_witness :
    (get_recent_activity 130
        (Store.mk []
          [{ type := "new_complaint", message := "m1", timestamp := 40 },
           { type := "status_update", message := "m2", timestamp := 100 }])).length
      = min 10 2 :=
  (recent_activity_contract
      (Store.mk []
        [{ type := "new_complaint", message := "m1", timestamp := 40 },
         { type := "status_update", message := "m2", timestamp := 100 }])
      130).2.1

end Grievix
